import Mathlib

/-!
Shallow embedding of the rainalert flood-monitoring repository's alert
evaluation core:

* `app/api/evaluate-alert/route.js` (the Evaluation Engine): `evaluateF`
* `app/api/flood/route.js` `POST` (the reading-ingest path): `postReadingF`

Times are modelled in seconds as rationals; database tables are lists of
records; the module-level variable `firstSafeDetectedAt` is threaded as
explicit state.  The parameter `failAt` injects a storage failure at the
`failAt`-th SQL query executed during a cycle (`0` = no failure), matching
the JavaScript `try`/`catch` which keeps every mutation performed before
the throwing statement.
-/

namespace RainAlert

/-- A row of the `sensor_readings` table as read by the Evaluation Engine. -/
structure SensorReading where
  distance : ℚ
  flood_level : ℚ
  status : String
  reading_time : ℕ
deriving DecidableEq, Repr

/-- A row of the `flood_alerts` table. -/
structure Alert where
  id : ℕ
  alert_level : String
  message : String
  status : String
  distance : Option ℚ
  flood_level : Option ℚ
  reading_time : Option ℕ
  created_at : ℚ
deriving DecidableEq, Repr

/-- Rounding as in `distance.toFixed(2)` then `parseFloat`: two decimal places
(round half up, as JavaScript `toFixed` does for positive values). -/
def round2 (q : ℚ) : ℚ := (round (q * 100) : ℤ) / 100

/-- Lines 141-154 of `evaluate-alert/route.js`: the alert level derived from
the rounded distance; `none` is the final `else` ("No flood alert triggered"). -/
def alertLevelOf (d : ℚ) : Option String :=
  if 60.96 < round2 d ∧ round2 d ≤ 76.2 then some "Warning"
  else if 30.48 < round2 d ∧ round2 d ≤ 60.96 then some "Danger"
  else if round2 d ≤ 30.48 then some "Critical"
  else none

/-- The overall severity classification performed by the engine: the raw
(unrounded) distance decides Safe at line 98; otherwise the banded level. -/
def classify (d : ℚ) : String :=
  if 76.2 < d then "Safe"
  else match alertLevelOf d with
    | some lvl => lvl
    | none => "Safe"

/-- JavaScript `String.prototype.toUpperCase()` (ASCII), modelled
character by character. -/
def toUpperStr (s : String) : String := ⟨s.data.map Char.toUpper⟩

/-- JavaScript `String.prototype.toLowerCase()` (ASCII), modelled
character by character. -/
def toLowerStr (s : String) : String := ⟨s.data.map Char.toLower⟩


/-- Test for status = "active" on an alert row. -/
def isActive (a : Alert) : Bool := a.status == "active"

/-- Number of rows of the `flood_alerts` table whose status is "active". -/
def countActive (alerts : List Alert) : ℕ := (alerts.filter isActive).length

/-- The bulk UPDATE of `flood_alerts` setting every "active" status to "past",
applied to one row. -/
def demoteActive (a : Alert) : Alert :=
  if isActive a then { a with status := "past" } else a

/-- The duplicate check of line 158:
`WHERE reading_time = ? AND alert_level = ?`. -/
def dupMatch (rt : ℕ) (lvl : String) (a : Alert) : Bool :=
  a.reading_time == some rt && a.alert_level == lvl

/-- Ordering of alert rows by `created_at` descending (later-created rows
first), as in `ORDER BY created_at DESC`. -/
def createdDesc (a b : Alert) : Prop := b.created_at ≤ a.created_at

instance : DecidableRel createdDesc := fun a b =>
  inferInstanceAs (Decidable (b.created_at ≤ a.created_at))

instance : IsTotal Alert createdDesc := ⟨fun a b => le_total b.created_at a.created_at⟩

instance : IsTrans Alert createdDesc := ⟨fun _ _ _ hab hbc => le_trans hbc hab⟩

/-- Result of the SELECT of active `flood_alerts` rows ordered by
`created_at` descending — the active rows, newest created first. -/
def sortActiveDesc (alerts : List Alert) : List Alert :=
  (alerts.filter isActive).insertionSort createdDesc

/-- The demotion UPDATE (set status to "past" for every active alert whose
id is not among the kept ids) applied to one row. -/
def capDemote (idsToKeep : List ℕ) (a : Alert) : Alert :=
  if isActive a && !(idsToKeep.contains a.id) then { a with status := "past" } else a

/-- The outcome of one run of `POST /api/evaluate-alert`, identified by the
message of the JSON response the handler returns. -/
inductive Outcome
  /-- Message "No sensor data found." -/
  | noSensorData
  /-- Message "Water is safe. Waiting for grace period to confirm." -/
  | safeWaitingStart
  /-- Message "Water level has been safe for 5 minutes. Alerts marked as past." -/
  | allAlertsCleared
  /-- Message "Water is safe. n seconds remaining to confirm." -/
  | awaitingConfirmation (secondsRemaining : ℤ)
  /-- Message "No flood alert triggered. Water level is safe." -/
  | noAlertTriggered
  /-- Message "Duplicate alert already exists. Skipping insertion." -/
  | duplicateSkipped
  /-- Message "Flood alert recorded successfully." -/
  | alertRecorded
  /-- Message "New alert recorded. Older alerts marked as past." -/
  | alertRecordedDemoted
  /-- Message "Error evaluating flood alert." (the catch-all handler) -/
  | storageError
deriving DecidableEq, Repr

/-- The observable result of one evaluation cycle: the JSON response's
`success` flag, the HTTP status of the response, the outcome, and the state
left behind (the module variable `firstSafeDetectedAt` and the
`flood_alerts` table with its auto-increment counter). -/
structure EvalResult where
  success : Bool
  httpStatus : ℕ
  outcome : Outcome
  firstSafeDetectedAt : Option ℚ
  alerts : List Alert
  nextId : ℕ
deriving DecidableEq, Repr

/-- The response of the catch-all error handler (`NextResponse.json` with no
`status` option defaults to HTTP 200), keeping whatever state mutations
happened before the throwing query. -/
def errRes (fsda : Option ℚ) (alerts : List Alert) (nextId : ℕ) : EvalResult :=
  ⟨false, 200, .storageError, fsda, alerts, nextId⟩

/-- The alert row inserted by the Evaluation Engine (lines 169-181). -/
def engineAlert (r : SensorReading) (lvl : String) (nextId : ℕ) (now : ℚ) : Alert :=
  ⟨nextId, lvl, lvl ++ " flood level detected.", "active",
    some r.distance, some r.flood_level, some r.reading_time, now⟩

/-- One run of `POST /api/evaluate-alert` (`app/api/evaluate-alert/route.js`).
`latest` is the row returned by the initial `SELECT ... LIMIT 1` (`none` when
`sensor_readings` is empty); `now` is the clock in seconds; `fsda` is the
module variable `firstSafeDetectedAt` on entry; `alerts`/`nextId` are the
`flood_alerts` table and its auto-increment counter.  `failAt` makes the
`failAt`-th SQL query of the cycle throw (`0` for a run with no failure);
the queries of a cycle, in execution order, are: 1 the latest-reading
`SELECT`, then on the safe-confirmed path 2 the bulk `UPDATE`, or on the
adverse path 2 the duplicate-check `SELECT`, 3 the `INSERT`, 4 the
active-alerts `SELECT`, 5 the demotion `UPDATE`. -/
def evaluateF (failAt : ℕ) (latest : Option SensorReading) (now : ℚ)
    (fsda : Option ℚ) (alerts : List Alert) (nextId : ℕ) : EvalResult :=
  if failAt = 1 then errRes fsda alerts nextId
  else match latest with
  | none => ⟨false, 200, .noSensorData, fsda, alerts, nextId⟩
  | some r =>
    if 76.2 < r.distance then
      match fsda with
      | none => ⟨true, 200, .safeWaitingStart, some now, alerts, nextId⟩
      | some t0 =>
        let elapsed := now - t0
        if 300 ≤ elapsed then
          if failAt = 2 then errRes (some t0) alerts nextId
          else ⟨true, 200, .allAlertsCleared, none, alerts.map demoteActive, nextId⟩
        else ⟨true, 200, .awaitingConfirmation ⌈300 - elapsed⌉, some t0, alerts, nextId⟩
    else
      match alertLevelOf r.distance with
      | none => ⟨true, 200, .noAlertTriggered, none, alerts, nextId⟩
      | some lvl =>
        if failAt = 2 then errRes none alerts nextId
        else if alerts.any (dupMatch r.reading_time lvl) then
          ⟨true, 200, .duplicateSkipped, none, alerts, nextId⟩
        else if failAt = 3 then errRes none alerts nextId
        else
          let alerts1 := alerts ++ [engineAlert r lvl nextId now]
          if failAt = 4 then errRes none alerts1 (nextId + 1)
          else
            let activeSorted := sortActiveDesc alerts1
            if 2 < activeSorted.length then
              if failAt = 5 then errRes none alerts1 (nextId + 1)
              else
                let idsToKeep := (activeSorted.take 2).map (·.id)
                ⟨true, 200, .alertRecordedDemoted, none,
                  alerts1.map (capDemote idsToKeep), nextId + 1⟩
            else ⟨true, 200, .alertRecorded, none, alerts1, nextId + 1⟩

/-- An evaluation cycle in which no storage operation fails. -/
def evaluate (latest : Option SensorReading) (now : ℚ) (fsda : Option ℚ)
    (alerts : List Alert) (nextId : ℕ) : EvalResult :=
  evaluateF 0 latest now fsda alerts nextId

/-- A JSON value as far as the ingest handler's `typeof` checks can tell it
apart: a number, a string, or anything else (including a missing field). -/
inductive JVal
  | jnum (q : ℚ)
  | jstr (s : String)
  | jother
deriving DecidableEq, Repr

/-- Test for typeof v being "number". -/
def JVal.isNumber : JVal → Bool
  | .jnum _ => true
  | _ => false

/-- Test for typeof v being "string". -/
def JVal.isString : JVal → Bool
  | .jstr _ => true
  | _ => false

/-- The numeric payload (defined only when `isNumber`). -/
def JVal.getNum : JVal → ℚ
  | .jnum q => q
  | _ => 0

/-- The string payload (defined only when `isString`). -/
def JVal.getStr : JVal → String
  | .jstr s => s
  | _ => ""

/-- The destructured body `{distance, floodLevel, status}` of `POST /api/flood`. -/
structure RawBody where
  distance : JVal
  floodLevel : JVal
  status : JVal
deriving DecidableEq, Repr

/-- A row of the `sensor_readings` table as written by the ingest handler
(`INSERT INTO sensor_readings (distance, flood_level, status)`). -/
structure Reading where
  id : ℕ
  distance : ℚ
  flood_level : ℚ
  status : String
deriving DecidableEq, Repr

/-- The `receivedData` object of the 200 response. -/
structure ReceivedData where
  id : ℕ
  distance : ℚ
  floodLevel : ℚ
  status : String
  timestamp : ℚ
deriving DecidableEq, Repr

/-- The observable result of one `POST /api/flood` request: response flag and
HTTP status, the `receivedData` payload when present, and the state left in
the `sensor_readings` and `flood_alerts` tables. -/
structure PostResult where
  success : Bool
  httpStatus : ℕ
  receivedData : Option ReceivedData
  readings : List Reading
  nextReadingId : ℕ
  alerts : List Alert
  nextAlertId : ℕ
deriving DecidableEq, Repr

/-- Lines 78-82: the status tag triggers the secondary alert-insert path. -/
def adverseTag (s : String) : Bool :=
  toUpperStr s == "WARNING" || toUpperStr s == "DANGER" || toUpperStr s == "CRITICAL"

/-- Lines 84-92: the message template chosen from the status tag. -/
def ingestMessage (s : String) : String :=
  if toUpperStr s == "WARNING" then "Warning: Rising Water Level."
  else if toUpperStr s == "DANGER" then "Danger: High Water Level!"
  else if toUpperStr s == "CRITICAL" then "Critical Flood Level! Immediate action required."
  else ""

/-- The alert row inserted by the ingest path (lines 94-97): only
`alert_level`, `message`, `status` and the timestamps are set; `distance`,
`flood_level` and `reading_time` are left NULL. -/
def ingestAlert (s : String) (nextAlertId : ℕ) (now : ℚ) : Alert :=
  ⟨nextAlertId, toLowerStr s, ingestMessage s, "active", none, none, none, now⟩

/-- One run of `POST /api/flood` (`app/api/flood/route.js`).  `body` is the
parsed JSON body (`none` when `request.json()` threw); `now` is the clock;
the remaining arguments are the two tables with their auto-increment
counters.  `failAt` makes the `failAt`-th SQL statement throw (1 the reading
`INSERT`, 2 the alert `INSERT`); `0` is a failure-free run. -/
def postReadingF (failAt : ℕ) (body : Option RawBody) (now : ℚ)
    (readings : List Reading) (nextReadingId : ℕ)
    (alerts : List Alert) (nextAlertId : ℕ) : PostResult :=
  match body with
  | none => ⟨false, 400, none, readings, nextReadingId, alerts, nextAlertId⟩
  | some b =>
    if !(b.distance.isNumber && b.floodLevel.isNumber && b.status.isString) then
      ⟨false, 400, none, readings, nextReadingId, alerts, nextAlertId⟩
    else
      let d := b.distance.getNum
      let fl := b.floodLevel.getNum
      let s := b.status.getStr
      if failAt = 1 then ⟨false, 500, none, readings, nextReadingId, alerts, nextAlertId⟩
      else
        let readings1 := readings ++ [⟨nextReadingId, d, fl, s⟩]
        if adverseTag s then
          if failAt = 2 then
            ⟨false, 500, none, readings1, nextReadingId + 1, alerts, nextAlertId⟩
          else
            ⟨true, 200, some ⟨nextReadingId, d, fl, s, now⟩,
              readings1, nextReadingId + 1,
              alerts ++ [ingestAlert s nextAlertId now], nextAlertId + 1⟩
        else
          ⟨true, 200, some ⟨nextReadingId, d, fl, s, now⟩,
            readings1, nextReadingId + 1, alerts, nextAlertId⟩

/-- An ingest request in which no storage operation fails. -/
def postReading (body : Option RawBody) (now : ℚ)
    (readings : List Reading) (nextReadingId : ℕ)
    (alerts : List Alert) (nextAlertId : ℕ) : PostResult :=
  postReadingF 0 body now readings nextReadingId alerts nextAlertId

/-! ### Helper lemmas about the store operations -/

theorem isActive_demoteActive (a : Alert) : isActive (demoteActive a) = false := by
  unfold demoteActive
  split
  · simp [isActive]
  · simp_all [isActive]

theorem countActive_map_demoteActive (l : List Alert) :
    countActive (l.map demoteActive) = 0 := by
  unfold countActive
  rw [List.filter_map]
  have h : (isActive ∘ demoteActive) = fun _ => false := by
    funext a
    exact isActive_demoteActive a
  simp [h]

theorem dupMatch_capDemote (rt : ℕ) (lvl : String) (ks : List ℕ) (a : Alert) :
    dupMatch rt lvl (capDemote ks a) = dupMatch rt lvl a := by
  unfold capDemote
  split <;> rfl

theorem id_capDemote (ks : List ℕ) (a : Alert) : (capDemote ks a).id = a.id := by
  unfold capDemote
  split <;> rfl

theorem isActive_capDemote (ks : List ℕ) (a : Alert) :
    isActive (capDemote ks a) = (isActive a && ks.contains a.id) := by
  unfold capDemote
  split
  · rename_i h
    simp only [Bool.and_eq_true, Bool.not_eq_true'] at h
    rw [h.1, h.2]
    rfl
  · rename_i h
    cases hA : isActive a
    · simp
    · cases hc : ks.contains a.id
      · exact absurd (by rw [hA, hc]; rfl) h
      · simp [hc]

theorem length_sortActiveDesc (l : List Alert) :
    (sortActiveDesc l).length = countActive l :=
  (List.perm_insertionSort createdDesc (l.filter isActive)).length_eq

theorem mem_sortActiveDesc {a : Alert} {l : List Alert} :
    a ∈ sortActiveDesc l ↔ a ∈ l ∧ isActive a = true := by
  unfold sortActiveDesc
  rw [List.mem_insertionSort, List.mem_filter]

theorem nodup_id_sortActiveDesc {l : List Alert}
    (h : (l.map (·.id)).Nodup) : ((sortActiveDesc l).map (·.id)).Nodup := by
  have hperm : ((sortActiveDesc l).map (·.id)).Perm ((l.filter isActive).map (·.id)) :=
    (List.perm_insertionSort createdDesc (l.filter isActive)).map _
  have hsub : ((l.filter isActive).map (·.id)).Sublist (l.map (·.id)) :=
    (List.filter_sublist l).map _
  exact hperm.nodup_iff.mpr (List.Nodup.sublist hsub h)

/-! ### Helper lemmas about the classifier -/

theorem round2_le_safe {d : ℚ} (h : d ≤ 76.2) : round2 d ≤ 76.2 := by
  unfold round2
  rw [round_eq]
  have h1 : (⌊d * 100 + 1 / 2⌋ : ℤ) ≤ 7620 := by
    have h2 : d * 100 + 1 / 2 ≤ (7620 : ℚ) + 1 / 2 := by linarith
    calc (⌊d * 100 + 1 / 2⌋ : ℤ) ≤ ⌊(7620 : ℚ) + 1 / 2⌋ := Int.floor_le_floor h2
      _ = 7620 := by norm_num
  have h3 : ((⌊d * 100 + 1 / 2⌋ : ℤ) : ℚ) ≤ 7620 := by exact_mod_cast h1
  norm_num
  linarith

theorem alertLevelOf_cases {d : ℚ} {lvl : String} (h : alertLevelOf d = some lvl) :
    lvl = "Warning" ∨ lvl = "Danger" ∨ lvl = "Critical" := by
  unfold alertLevelOf at h
  split_ifs at h <;> simp_all

theorem alertLevelOf_adverse {d : ℚ} (h : d ≤ 76.2) :
    ∃ lvl, alertLevelOf d = some lvl := by
  have hr := round2_le_safe h
  unfold alertLevelOf
  split_ifs with h1 h2 h3
  · exact ⟨_, rfl⟩
  · exact ⟨_, rfl⟩
  · exact ⟨_, rfl⟩
  · exfalso
    push_neg at h1 h2 h3
    have h6 := h2 h3
    have h7 := h1 h6
    linarith

/-! ### Branch lemmas for the Evaluation Engine -/

theorem evaluate_safe_start {r : SensorReading} (now : ℚ) (alerts : List Alert)
    (nextId : ℕ) (hsafe : 76.2 < r.distance) :
    evaluate (some r) now none alerts nextId =
      ⟨true, 200, .safeWaitingStart, some now, alerts, nextId⟩ := by
  simp [evaluate, evaluateF, hsafe]

theorem evaluate_safe_cleared {r : SensorReading} (now t0 : ℚ) (alerts : List Alert)
    (nextId : ℕ) (hsafe : 76.2 < r.distance) (h300 : 300 ≤ now - t0) :
    evaluate (some r) now (some t0) alerts nextId =
      ⟨true, 200, .allAlertsCleared, none, alerts.map demoteActive, nextId⟩ := by
  simp [evaluate, evaluateF, hsafe, h300]

theorem evaluate_safe_waiting {r : SensorReading} (now t0 : ℚ) (alerts : List Alert)
    (nextId : ℕ) (hsafe : 76.2 < r.distance) (hlt : now - t0 < 300) :
    evaluate (some r) now (some t0) alerts nextId =
      ⟨true, 200, .awaitingConfirmation ⌈300 - (now - t0)⌉, some t0, alerts, nextId⟩ := by
  simp [evaluate, evaluateF, hsafe, not_le.mpr hlt]

theorem evaluate_dup_skip {r : SensorReading} {lvl : String} (now : ℚ)
    (fsda : Option ℚ) (alerts : List Alert) (nextId : ℕ)
    (hadv : r.distance ≤ 76.2) (hlvl : alertLevelOf r.distance = some lvl)
    (hdup : alerts.any (dupMatch r.reading_time lvl) = true) :
    evaluate (some r) now fsda alerts nextId =
      ⟨true, 200, .duplicateSkipped, none, alerts, nextId⟩ := by
  simp [evaluate, evaluateF, not_lt.mpr hadv, hlvl, hdup]

theorem evaluate_insert {r : SensorReading} {lvl : String} (now : ℚ)
    (fsda : Option ℚ) (alerts : List Alert) (nextId : ℕ)
    (hadv : r.distance ≤ 76.2) (hlvl : alertLevelOf r.distance = some lvl)
    (hnew : alerts.any (dupMatch r.reading_time lvl) = false) :
    evaluate (some r) now fsda alerts nextId =
      (if 2 < countActive (alerts ++ [engineAlert r lvl nextId now]) then
        ⟨true, 200, .alertRecordedDemoted, none,
          (alerts ++ [engineAlert r lvl nextId now]).map
            (capDemote (((sortActiveDesc (alerts ++ [engineAlert r lvl nextId now])).take 2).map (·.id))),
          nextId + 1⟩
      else ⟨true, 200, .alertRecorded, none,
        alerts ++ [engineAlert r lvl nextId now], nextId + 1⟩) := by
  simp only [evaluate, evaluateF, not_lt.mpr hadv, if_false, hlvl, hnew,
    length_sortActiveDesc]
  norm_num

theorem evaluate_adverse_fsda {r : SensorReading} (now : ℚ) (fsda : Option ℚ)
    (alerts : List Alert) (nextId : ℕ) (hadv : r.distance ≤ 76.2) :
    (evaluate (some r) now fsda alerts nextId).firstSafeDetectedAt = none := by
  obtain ⟨lvl, hlvl⟩ := alertLevelOf_adverse hadv
  by_cases hdup : alerts.any (dupMatch r.reading_time lvl) = true
  · rw [evaluate_dup_skip now fsda alerts nextId hadv hlvl hdup]
  · have hnew : alerts.any (dupMatch r.reading_time lvl) = false := by
      revert hdup
      cases alerts.any (dupMatch r.reading_time lvl) <;> simp
    rw [evaluate_insert now fsda alerts nextId hadv hlvl hnew]
    split <;> rfl

/-! ### Claims about the Severity Classifier (C5) -/

/-- C5 counterexample: the claim's exact band `60.96 < d ≤ 76.2 → Warning`
fails at `d = 60.961` because the engine first rounds the distance to two
decimals (`60.961 → 60.96`), which pushes the value into the Danger band. -/
theorem classify_band_counterexample :
    (60.96 : ℚ) < 60.961 ∧ (60.961 : ℚ) ≤ 76.2 ∧
    classify 60.961 = "Danger" ∧ classify 60.961 ≠ "Warning" := by
  have h : classify 60.961 = "Danger" := by
    norm_num [classify, alertLevelOf, round2, round_eq]
  exact ⟨by norm_num, by norm_num, h, by rw [h]; decide⟩

/-- C5 (amended): Safe holds exactly for raw distances above 76.2 cm; the
Warning / Danger / Critical bands are decided on the distance rounded to two
decimal places (`toFixed(2)`): Warning iff `60.96 < round2 d` (with
`d ≤ 76.2`), Danger iff `30.48 < round2 d ≤ 60.96`, Critical iff
`round2 d ≤ 30.48`; `classify 76.2 = Warning`, `classify 76.2001 = Safe`,
and every distance falls in exactly one band. -/
theorem classify_bands (d : ℚ) :
    (classify d = "Safe" ↔ 76.2 < d) ∧
    (classify d = "Warning" ↔ d ≤ 76.2 ∧ 60.96 < round2 d) ∧
    (classify d = "Danger" ↔ d ≤ 76.2 ∧ 30.48 < round2 d ∧ round2 d ≤ 60.96) ∧
    (classify d = "Critical" ↔ d ≤ 76.2 ∧ round2 d ≤ 30.48) ∧
    classify (76.2 : ℚ) = "Warning" ∧ classify (76.2001 : ℚ) = "Safe" := by
  have hb1 : classify (76.2 : ℚ) = "Warning" := by
    norm_num [classify, alertLevelOf, round2, round_eq]
  have hb2 : classify (76.2001 : ℚ) = "Safe" := by
    norm_num [classify, alertLevelOf, round2, round_eq]
  by_cases hd : 76.2 < d
  · have hc : classify d = "Safe" := by simp [classify, hd]
    rw [hc]
    refine ⟨iff_of_true rfl hd, iff_of_false (by decide) ?_,
      iff_of_false (by decide) ?_, iff_of_false (by decide) ?_, hb1, hb2⟩
    · exact fun h => absurd hd (not_lt.mpr h.1)
    · exact fun h => absurd hd (not_lt.mpr h.1)
    · exact fun h => absurd hd (not_lt.mpr h.1)
  · have hle : d ≤ 76.2 := le_of_not_lt hd
    have hr := round2_le_safe hle
    by_cases h1 : 60.96 < round2 d
    · have hw : alertLevelOf d = some "Warning" := by
        unfold alertLevelOf
        rw [if_pos ⟨h1, hr⟩]
      have hc : classify d = "Warning" := by simp [classify, hd, hw]
      rw [hc]
      refine ⟨iff_of_false (by decide) hd, iff_of_true rfl ⟨hle, h1⟩,
        iff_of_false (by decide) ?_, iff_of_false (by decide) ?_, hb1, hb2⟩
      · exact fun h => absurd h1 (not_lt.mpr h.2.2)
      · exact fun h => by linarith [h.2]
    · by_cases h2 : 30.48 < round2 d
      · have hw : alertLevelOf d = some "Danger" := by
          unfold alertLevelOf
          rw [if_neg (fun h => h1 h.1), if_pos ⟨h2, le_of_not_lt h1⟩]
        have hc : classify d = "Danger" := by simp [classify, hd, hw]
        rw [hc]
        refine ⟨iff_of_false (by decide) hd, iff_of_false (by decide) ?_,
          iff_of_true rfl ⟨hle, h2, le_of_not_lt h1⟩,
          iff_of_false (by decide) ?_, hb1, hb2⟩
        · exact fun h => h1 h.2
        · exact fun h => absurd h2 (not_lt.mpr h.2)
      · have hw : alertLevelOf d = some "Critical" := by
          unfold alertLevelOf
          rw [if_neg (fun h => h1 h.1), if_neg (fun h => h2 h.1),
            if_pos (le_of_not_lt h2)]
        have hc : classify d = "Critical" := by simp [classify, hd, hw]
        rw [hc]
        refine ⟨iff_of_false (by decide) hd, iff_of_false (by decide) ?_,
          iff_of_false (by decide) ?_, iff_of_true rfl ⟨hle, le_of_not_lt h2⟩,
          hb1, hb2⟩
        · exact fun h => h1 h.2
        · exact fun h => h2 h.2.1

/-! ### Claims about the safe branch and the grace period (C2, C3) -/

/-- C2 (confirmed): on a Safe-classified latest reading, the engine either
starts the grace timer (`firstSafeDetectedAt` unset: set it to now, return
the waiting outcome, leave the alert store untouched), or — with the timer
set and at least 300 seconds elapsed — demotes every active alert to past,
clears the timer and reports all alerts cleared, or — under 300 seconds —
reports the remaining seconds and mutates neither the store nor the timer. -/
theorem safe_branch_spec (r : SensorReading) (now t0 : ℚ)
    (alerts : List Alert) (nextId : ℕ) (hsafe : 76.2 < r.distance) :
    (evaluate (some r) now none alerts nextId =
      ⟨true, 200, .safeWaitingStart, some now, alerts, nextId⟩) ∧
    (300 ≤ now - t0 →
      evaluate (some r) now (some t0) alerts nextId =
        ⟨true, 200, .allAlertsCleared, none, alerts.map demoteActive, nextId⟩ ∧
      countActive (alerts.map demoteActive) = 0) ∧
    (now - t0 < 300 →
      evaluate (some r) now (some t0) alerts nextId =
        ⟨true, 200, .awaitingConfirmation ⌈300 - (now - t0)⌉, some t0, alerts, nextId⟩) :=
  ⟨evaluate_safe_start now alerts nextId hsafe,
   fun h => ⟨evaluate_safe_cleared now t0 alerts nextId hsafe h,
     countActive_map_demoteActive alerts⟩,
   fun h => evaluate_safe_waiting now t0 alerts nextId hsafe h⟩

/-- Witness for C2: a safe reading 301 seconds after the grace timer started
clears the single active alert and resets the timer. -/
theorem safe_branch_spec_witness :
    evaluate (some ⟨80, 15, "SAFE", 7⟩) 301 (some 0)
      [⟨1, "Warning", "m", "active", none, none, some 3, 5⟩] 2 =
      ⟨true, 200, .allAlertsCleared, none,
        [⟨1, "Warning", "m", "past", none, none, some 3, 5⟩], 2⟩ := by
  have h := (safe_branch_spec ⟨80, 15, "SAFE", 7⟩ 301 0
      [⟨1, "Warning", "m", "active", none, none, some 3, 5⟩] 2 (by norm_num)).2.1
      (by norm_num)
  rw [h.1]
  simp [demoteActive, isActive]

/-- C3 (confirmed): every adverse evaluation run clears
`firstSafeDetectedAt` unconditionally, and in the scenario safe at `t0`,
adverse at `t0+100`, safe at `t0+150`, a further safe reading at any time
`t < t0+450` (i.e. before 300 seconds have elapsed since the second safe
start) only reports the remaining seconds: it does not clear any alert. -/
theorem adverse_resets_grace (rs ra rs2 rs3 : SensorReading) (t0 t : ℚ)
    (alerts : List Alert) (nextId : ℕ)
    (h1 : 76.2 < rs.distance) (h2 : ra.distance ≤ 76.2)
    (h3 : 76.2 < rs2.distance) (h4 : 76.2 < rs3.distance) (ht : t < t0 + 450) :
    (∀ (r : SensorReading) (now : ℚ) (fsda : Option ℚ) (al : List Alert) (n : ℕ),
      r.distance ≤ 76.2 →
      (evaluate (some r) now fsda al n).firstSafeDetectedAt = none) ∧
    (evaluate (some rs) t0 none alerts nextId).firstSafeDetectedAt = some t0 ∧
    (let e1 := evaluate (some rs) t0 none alerts nextId
     let e2 := evaluate (some ra) (t0 + 100) e1.firstSafeDetectedAt e1.alerts e1.nextId
     let e3 := evaluate (some rs2) (t0 + 150) e2.firstSafeDetectedAt e2.alerts e2.nextId
     let e4 := evaluate (some rs3) t e3.firstSafeDetectedAt e3.alerts e3.nextId
     e3.firstSafeDetectedAt = some (t0 + 150) ∧
     e4.alerts = e3.alerts ∧
     e4.outcome = .awaitingConfirmation ⌈300 - (t - (t0 + 150))⌉) := by
  refine ⟨fun r now fsda al n hadv => evaluate_adverse_fsda now fsda al n hadv,
    by rw [evaluate_safe_start t0 alerts nextId h1], ?_⟩
  rw [evaluate_safe_start t0 alerts nextId h1]
  simp only
  have hf2 : (evaluate (some ra) (t0 + 100) (some t0) alerts nextId).firstSafeDetectedAt
      = none := evaluate_adverse_fsda (t0 + 100) (some t0) alerts nextId h2
  rw [hf2]
  rw [evaluate_safe_start (t0 + 150) _ _ h3]
  simp only
  rw [evaluate_safe_waiting t (t0 + 150) _ _ h4 (by linarith)]
  exact ⟨trivial, rfl, rfl⟩

/-- Witness for C3: a concrete safe / adverse / safe / safe trace on an
empty store. -/
theorem adverse_resets_grace_witness :
    (evaluate (some ⟨80, 0, "s", 1⟩) 0 none [] 0).firstSafeDetectedAt = some 0 :=
  (adverse_resets_grace ⟨80, 0, "s", 1⟩ ⟨50, 0, "s", 2⟩ ⟨80, 0, "s", 3⟩
    ⟨80, 0, "s", 4⟩ 0 449 [] 0 (by norm_num) (by norm_num) (by norm_num)
    (by norm_num) (by norm_num)).2.1

/-! ### Claims about deduplication (C4) -/

theorem dupMatch_engineAlert (r : SensorReading) (lvl : String) (n : ℕ) (now : ℚ) :
    dupMatch r.reading_time lvl (engineAlert r lvl n now) = true := by
  simp [dupMatch, engineAlert]

/-- C4 (confirmed): evaluation is idempotent under repeated polling of the
same unchanged adverse reading — after a first evaluation inserts an alert,
a second evaluation of the same reading returns the duplicate-skip outcome
and changes nothing, leaving exactly one stored alert with the reading's
key; and the duplicate key is exactly `(reading_time, alert_level)`: any
stored alert matching those two fields suppresses the insert regardless of
its distance. -/
theorem evaluate_idempotent_dedup (r : SensorReading) (lvl : String)
    (now1 now2 : ℚ) (fsda : Option ℚ) (nextId : ℕ)
    (hadv : r.distance ≤ 76.2) (hlvl : alertLevelOf r.distance = some lvl) :
    (∀ alerts : List Alert, (∀ a ∈ alerts, dupMatch r.reading_time lvl a = false) →
      let e1 := evaluate (some r) now1 fsda alerts nextId
      let e2 := evaluate (some r) now2 e1.firstSafeDetectedAt e1.alerts e1.nextId
      e2.outcome = .duplicateSkipped ∧ e2.alerts = e1.alerts ∧
      e2.nextId = e1.nextId ∧
      List.countP (dupMatch r.reading_time lvl) e1.alerts = 1) ∧
    (∀ (alerts : List Alert) (a : Alert), a ∈ alerts →
      a.reading_time = some r.reading_time → a.alert_level = lvl →
      evaluate (some r) now1 fsda alerts nextId =
        ⟨true, 200, .duplicateSkipped, none, alerts, nextId⟩) := by
  constructor
  · intro alerts h
    have hnew : alerts.any (dupMatch r.reading_time lvl) = false :=
      List.any_eq_false.mpr (fun a ha => by simp [h a ha])
    have hcount0 : List.countP (dupMatch r.reading_time lvl) alerts = 0 :=
      List.countP_eq_zero.mpr (fun a ha => by simp [h a ha])
    have hcount1 : List.countP (dupMatch r.reading_time lvl)
        (alerts ++ [engineAlert r lvl nextId now1]) = 1 := by
      rw [List.countP_append, hcount0]
      simp [List.countP_cons, dupMatch_engineAlert]
    simp only [evaluate_insert now1 fsda alerts nextId hadv hlvl hnew]
    by_cases hgt : 2 < countActive (alerts ++ [engineAlert r lvl nextId now1])
    · rw [if_pos hgt]
      dsimp only
      have hdup2 : ((alerts ++ [engineAlert r lvl nextId now1]).map
          (capDemote (((sortActiveDesc (alerts ++ [engineAlert r lvl nextId now1])).take 2).map (·.id)))).any
            (dupMatch r.reading_time lvl) = true := by
        refine List.any_eq_true.mpr ⟨capDemote _ (engineAlert r lvl nextId now1),
          List.mem_map_of_mem _ ?_, ?_⟩
        · exact List.mem_append_right _ (List.mem_singleton_self _)
        · rw [dupMatch_capDemote]
          exact dupMatch_engineAlert r lvl nextId now1
      rw [evaluate_dup_skip now2 none _ _ hadv hlvl hdup2]
      refine ⟨rfl, rfl, rfl, ?_⟩
      rw [List.countP_map,
        show (dupMatch r.reading_time lvl ∘
            capDemote (((sortActiveDesc (alerts ++ [engineAlert r lvl nextId now1])).take 2).map (·.id)))
          = dupMatch r.reading_time lvl from funext fun a => dupMatch_capDemote _ _ _ a]
      exact hcount1
    · rw [if_neg hgt]
      dsimp only
      have hdup2 : (alerts ++ [engineAlert r lvl nextId now1]).any
          (dupMatch r.reading_time lvl) = true :=
        List.any_eq_true.mpr ⟨engineAlert r lvl nextId now1,
          List.mem_append_right _ (List.mem_singleton_self _),
          dupMatch_engineAlert r lvl nextId now1⟩
      rw [evaluate_dup_skip now2 none _ _ hadv hlvl hdup2]
      exact ⟨rfl, rfl, rfl, hcount1⟩
  · intro alerts a ha hrt hlv
    have hdup : alerts.any (dupMatch r.reading_time lvl) = true :=
      List.any_eq_true.mpr ⟨a, ha, by simp [dupMatch, hrt, hlv]⟩
    exact evaluate_dup_skip now1 fsda alerts nextId hadv hlvl hdup

/-- Witness for C4: two consecutive evaluations of the reading
`(distance 50, reading_time 9)` on an empty store: the second is skipped as
a duplicate and exactly one alert with key `(9, Danger)` is stored. -/
theorem evaluate_idempotent_dedup_witness :
    (evaluate (some ⟨50, 20, "x", 9⟩) 1
        (evaluate (some ⟨50, 20, "x", 9⟩) 0 none [] 0).firstSafeDetectedAt
        (evaluate (some ⟨50, 20, "x", 9⟩) 0 none [] 0).alerts
        (evaluate (some ⟨50, 20, "x", 9⟩) 0 none [] 0).nextId).outcome =
      Outcome.duplicateSkipped ∧
    List.countP (dupMatch 9 "Danger")
      (evaluate (some ⟨50, 20, "x", 9⟩) 0 none [] 0).alerts = 1 := by
  have h := (evaluate_idempotent_dedup ⟨50, 20, "x", 9⟩ "Danger" 0 1 none 0
    (by norm_num) (by norm_num [alertLevelOf, round2, round_eq])).1 [] (by simp)
  exact ⟨h.1, h.2.2.2⟩

/-! ### Claims about the active-alert cap (C1) -/

theorem length_filter_ids (l : List Alert) (ks : List ℕ)
    (hl : (l.map (·.id)).Nodup) (hks : ks.Nodup)
    (hcov : ∀ k ∈ ks, ∃ a, a ∈ l ∧ isActive a = true ∧ a.id = k) :
    (l.filter (fun a => isActive a && ks.contains a.id)).length = ks.length := by
  have hsub : ((l.filter (fun a => isActive a && ks.contains a.id)).map (·.id)).Sublist
      (l.map (·.id)) := (List.filter_sublist l).map _
  have hnd : ((l.filter (fun a => isActive a && ks.contains a.id)).map (·.id)).Nodup :=
    List.Nodup.sublist hsub hl
  have hmem : ∀ x, x ∈ (l.filter (fun a => isActive a && ks.contains a.id)).map (·.id)
      ↔ x ∈ ks := by
    intro x
    constructor
    · intro hx
      rcases List.mem_map.mp hx with ⟨a, ha, rfl⟩
      have h2 := (List.mem_filter.mp ha).2
      have hc : ks.contains a.id = true := ((Bool.and_eq_true _ _).mp h2).2
      simpa using hc
    · intro hx
      rcases hcov x hx with ⟨a, ha, hact, rfl⟩
      refine List.mem_map.mpr ⟨a, List.mem_filter.mpr ⟨ha, ?_⟩, rfl⟩
      rw [hact]
      simpa using hx
  have hperm := (List.perm_ext_iff_of_nodup hnd hks).mpr hmem
  simpa using hperm.length_eq

theorem countActive_capDemote (l : List Alert) (ks : List ℕ)
    (hl : (l.map (·.id)).Nodup) (hks : ks.Nodup)
    (hcov : ∀ k ∈ ks, ∃ a, a ∈ l ∧ isActive a = true ∧ a.id = k) :
    countActive (l.map (capDemote ks)) = ks.length := by
  unfold countActive
  rw [List.filter_map, List.length_map,
    show (isActive ∘ capDemote ks) = (fun a => isActive a && ks.contains a.id) from
      funext fun a => isActive_capDemote ks a]
  exact length_filter_ids l ks hl hks hcov

theorem cap_keep_two (alerts1 : List Alert)
    (hnodup : (alerts1.map (·.id)).Nodup) (hgt : 2 < countActive alerts1) :
    countActive (alerts1.map
      (capDemote (((sortActiveDesc alerts1).take 2).map (·.id)))) = 2 := by
  have hsortnd : ((sortActiveDesc alerts1).map (·.id)).Nodup :=
    nodup_id_sortActiveDesc hnodup
  have htake : ((((sortActiveDesc alerts1).take 2)).map (·.id)).Sublist
      ((sortActiveDesc alerts1).map (·.id)) := (List.take_sublist 2 _).map _
  have hks : ((((sortActiveDesc alerts1).take 2)).map (·.id)).Nodup :=
    List.Nodup.sublist htake hsortnd
  have hcov : ∀ k ∈ (((sortActiveDesc alerts1).take 2)).map (·.id),
      ∃ a, a ∈ alerts1 ∧ isActive a = true ∧ a.id = k := by
    intro k hk
    rcases List.mem_map.mp hk with ⟨a, ha, rfl⟩
    have ha2 : a ∈ sortActiveDesc alerts1 := (List.take_sublist 2 _).subset ha
    have h3 := mem_sortActiveDesc.mp ha2
    exact ⟨a, h3.1, h3.2, rfl⟩
  have hlen : ((((sortActiveDesc alerts1).take 2)).map (·.id)).length = 2 := by
    rw [List.length_map, List.length_take]
    have h2 : 2 ≤ (sortActiveDesc alerts1).length := by
      rw [length_sortActiveDesc]
      omega
    exact min_eq_left h2
  rw [countActive_capDemote alerts1 _ hnodup hks hcov, hlen]

/-- C1 counterexample: the `POST /readings` secondary insertion path does
not enforce the cap — with 2 alerts already active, a valid reading with
status tag WARNING leaves 3 active alerts in the store. -/
theorem readings_path_breaks_cap :
    countActive (postReading (some ⟨.jnum 10, .jnum 5, .jstr "WARNING"⟩) 2 [] 0
      [⟨1, "warning", "m", "active", none, none, none, 0⟩,
       ⟨2, "danger", "m", "active", none, none, none, 1⟩] 3).alerts = 3 ∧
    ¬(countActive (postReading (some ⟨.jnum 10, .jnum 5, .jstr "WARNING"⟩) 2 [] 0
      [⟨1, "warning", "m", "active", none, none, none, 0⟩,
       ⟨2, "danger", "m", "active", none, none, none, 1⟩] 3).alerts ≤ 2) := by
  have h : countActive (postReading (some ⟨.jnum 10, .jnum 5, .jstr "WARNING"⟩) 2 [] 0
      [⟨1, "warning", "m", "active", none, none, none, 0⟩,
       ⟨2, "danger", "m", "active", none, none, none, 1⟩] 3).alerts = 3 := by
    norm_num [postReading, postReadingF, adverseTag, ingestAlert, ingestMessage,
      countActive, isActive, JVal.isNumber, JVal.isString, JVal.getNum, JVal.getStr]
    decide
  exact ⟨h, by omega⟩

/-- C1 (amended): the ≤ 2 bound on active alerts is enforced only by the
Evaluation Engine's insertion path — after a non-duplicate adverse
insertion, at most 2 alerts are active, and whenever the insertion raised
the active count above 2, exactly 2 remain (the first two of the active
alerts in `created_at`-descending order, all others demoted); the bound
does not hold across the `POST /readings` secondary insertion path, which
inserts an active alert with no demotion and can leave more than 2 active. -/
theorem evaluate_active_cap (r : SensorReading) (lvl : String) (now : ℚ)
    (fsda : Option ℚ) (alerts : List Alert) (nextId : ℕ)
    (hadv : r.distance ≤ 76.2) (hlvl : alertLevelOf r.distance = some lvl)
    (hnew : alerts.any (dupMatch r.reading_time lvl) = false)
    (hnodup : ((alerts ++ [engineAlert r lvl nextId now]).map (·.id)).Nodup) :
    countActive (evaluate (some r) now fsda alerts nextId).alerts ≤ 2 ∧
    (2 < countActive (alerts ++ [engineAlert r lvl nextId now]) →
      countActive (evaluate (some r) now fsda alerts nextId).alerts = 2 ∧
      (evaluate (some r) now fsda alerts nextId).alerts =
        (alerts ++ [engineAlert r lvl nextId now]).map
          (capDemote (((sortActiveDesc (alerts ++ [engineAlert r lvl nextId now])).take 2).map (·.id))) ∧
      List.Sorted createdDesc (sortActiveDesc (alerts ++ [engineAlert r lvl nextId now]))) := by
  rw [evaluate_insert now fsda alerts nextId hadv hlvl hnew]
  by_cases hgt : 2 < countActive (alerts ++ [engineAlert r lvl nextId now])
  · rw [if_pos hgt]
    dsimp only
    have h2 := cap_keep_two _ hnodup hgt
    exact ⟨le_of_eq h2, fun _ => ⟨h2, rfl,
      List.sorted_insertionSort createdDesc _⟩⟩
  · rw [if_neg hgt]
    dsimp only
    exact ⟨by omega, fun h => absurd h hgt⟩

/-- Witness for C1: inserting a third distinct adverse alert while 2 are
active leaves exactly 2 active. -/
theorem evaluate_active_cap_witness :
    countActive (evaluate (some ⟨50, 20, "x", 5⟩) 10 none
      [⟨1, "Warning", "m", "active", some 70, some 1, some 1, 0⟩,
       ⟨2, "Danger", "m", "active", some 55, some 1, some 2, 1⟩] 3).alerts = 2 :=
  ((evaluate_active_cap ⟨50, 20, "x", 5⟩ "Danger" 10 none
      [⟨1, "Warning", "m", "active", some 70, some 1, some 1, 0⟩,
       ⟨2, "Danger", "m", "active", some 55, some 1, some 2, 1⟩] 3
      (by norm_num) (by norm_num [alertLevelOf, round2, round_eq])
      (by decide) (by decide)).2 (by decide)).1

/-! ### Claims about storage-failure semantics (C6, C8) -/

/-- C6 counterexample: with the grace timer set (`firstSafeDetectedAt =
some 5`) and an adverse latest reading, a failure of the duplicate-check
query (the 2nd query of the cycle) aborts the evaluation, yet the timer has
already been cleared — the pre-cycle state is not restored. -/
theorem failure_keeps_cleared_timer :
    (evaluateF 2 (some ⟨50, 10, "x", 1⟩) 0 (some 5) [] 0).outcome =
      Outcome.storageError ∧
    (evaluateF 2 (some ⟨50, 10, "x", 1⟩) 0 (some 5) [] 0).firstSafeDetectedAt ≠
      some 5 := by
  have h : evaluateF 2 (some ⟨50, 10, "x", 1⟩) 0 (some 5) [] 0 = errRes none [] 0 := by
    norm_num [evaluateF, alertLevelOf, round2, round_eq]
  rw [h]
  exact ⟨rfl, by simp [errRes]⟩

/-- C6 (amended): any storage failure aborts the cycle with the error
outcome and `success = false`, but the evaluation state is not guaranteed
untouched: after a failure `firstSafeDetectedAt` is either its pre-cycle
value or has already been cleared to none (the adverse path clears it
before the first alert-store query), and the store keeps the writes that
completed before the failing query (either unchanged or with the new alert
appended — no rollback). -/
theorem evaluateF_failure_state (failAt : ℕ) (latest : Option SensorReading)
    (now : ℚ) (fsda : Option ℚ) (alerts : List Alert) (nextId : ℕ)
    (herr : (evaluateF failAt latest now fsda alerts nextId).outcome = .storageError) :
    (evaluateF failAt latest now fsda alerts nextId).success = false ∧
    ((evaluateF failAt latest now fsda alerts nextId).firstSafeDetectedAt = fsda ∨
     (evaluateF failAt latest now fsda alerts nextId).firstSafeDetectedAt = none) ∧
    ((evaluateF failAt latest now fsda alerts nextId).alerts = alerts ∨
     ∃ a, (evaluateF failAt latest now fsda alerts nextId).alerts = alerts ++ [a]) := by
  have hcases :
      (evaluateF failAt latest now fsda alerts nextId).outcome ≠ .storageError ∨
      ((evaluateF failAt latest now fsda alerts nextId).success = false ∧
       ((evaluateF failAt latest now fsda alerts nextId).firstSafeDetectedAt = fsda ∨
        (evaluateF failAt latest now fsda alerts nextId).firstSafeDetectedAt = none) ∧
       ((evaluateF failAt latest now fsda alerts nextId).alerts = alerts ∨
        ∃ a, (evaluateF failAt latest now fsda alerts nextId).alerts = alerts ++ [a])) := by
    simp only [evaluateF]
    repeat' split
    all_goals first
      | exact Or.inl (fun h => Outcome.noConfusion h)
      | exact Or.inr ⟨rfl, Or.inl rfl, Or.inl rfl⟩
      | exact Or.inr ⟨rfl, Or.inr rfl, Or.inl rfl⟩
      | exact Or.inr ⟨rfl, Or.inr rfl, Or.inr ⟨_, rfl⟩⟩
  exact hcases.resolve_left (fun h => h herr)

/-- Witness for C6: the very first query failing leaves everything
unchanged and reports the error outcome. -/
theorem evaluateF_failure_state_witness :
    (evaluateF 1 none 0 (some 3) [] 0).success = false ∧
    ((evaluateF 1 none 0 (some 3) [] 0).firstSafeDetectedAt = some 3 ∨
     (evaluateF 1 none 0 (some 3) [] 0).firstSafeDetectedAt = none) ∧
    ((evaluateF 1 none 0 (some 3) [] 0).alerts = [] ∨
     ∃ a, (evaluateF 1 none 0 (some 3) [] 0).alerts = [] ++ [a]) :=
  evaluateF_failure_state 1 none 0 (some 3) [] 0 rfl

/-- C8 counterexample: a failing evaluation cycle reports its error with
HTTP 200 (the `NextResponse.json` default), not a 5xx status. -/
theorem storage_error_not_5xx :
    (evaluateF 1 (some ⟨80, 0, "s", 2⟩) 5 none [] 0).outcome =
      Outcome.storageError ∧
    (evaluateF 1 (some ⟨80, 0, "s", 2⟩) 5 none [] 0).success = false ∧
    (evaluateF 1 (some ⟨80, 0, "s", 2⟩) 5 none [] 0).httpStatus = 200 ∧
    ¬(500 ≤ (evaluateF 1 (some ⟨80, 0, "s", 2⟩) 5 none [] 0).httpStatus) :=
  ⟨rfl, rfl, rfl, by decide⟩

/-- C8 (amended): every response of the evaluation endpoint — including the
storage-failure response — is delivered with HTTP status 200; the failure
is signalled only by `success = false` in the JSON body. -/
theorem evaluateF_http_status (failAt : ℕ) (latest : Option SensorReading)
    (now : ℚ) (fsda : Option ℚ) (alerts : List Alert) (nextId : ℕ) :
    (evaluateF failAt latest now fsda alerts nextId).httpStatus = 200 := by
  simp only [evaluateF]
  repeat' split
  all_goals rfl

/-! ### Claims about alert messages and the two insertion paths (C7, C10) -/

theorem capDemote_eq_or (ks : List ℕ) (a : Alert) :
    capDemote ks a = a ∨ capDemote ks a = { a with status := "past" } := by
  unfold capDemote
  split
  · exact Or.inr rfl
  · exact Or.inl rfl

theorem evaluate_insert_mem (r : SensorReading) (lvl : String) (now : ℚ)
    (fsda : Option ℚ) (alerts : List Alert) (nextId : ℕ)
    (hadv : r.distance ≤ 76.2) (hlvl : alertLevelOf r.distance = some lvl)
    (hnew : alerts.any (dupMatch r.reading_time lvl) = false) :
    ∃ a, a ∈ (evaluate (some r) now fsda alerts nextId).alerts ∧
      a.id = nextId ∧ a.alert_level = lvl ∧
      a.reading_time = some r.reading_time ∧
      a.message = lvl ++ " flood level detected." ∧
      a.distance = some r.distance ∧ a.flood_level = some r.flood_level := by
  rw [evaluate_insert now fsda alerts nextId hadv hlvl hnew]
  by_cases hgt : 2 < countActive (alerts ++ [engineAlert r lvl nextId now])
  · rw [if_pos hgt]
    dsimp only
    refine ⟨capDemote (((sortActiveDesc (alerts ++ [engineAlert r lvl nextId now])).take 2).map (·.id))
        (engineAlert r lvl nextId now),
      List.mem_map_of_mem _ (List.mem_append_right _ (List.mem_singleton_self _)), ?_⟩
    rcases capDemote_eq_or _ (engineAlert r lvl nextId now) with h | h <;> rw [h] <;>
      exact ⟨rfl, rfl, rfl, rfl, rfl, rfl⟩
  · rw [if_neg hgt]
    dsimp only
    exact ⟨engineAlert r lvl nextId now,
      List.mem_append_right _ (List.mem_singleton_self _), rfl, rfl, rfl, rfl, rfl, rfl⟩

/-- C7 counterexample: a Warning-level evaluation run inserts the message
"Warning flood level detected.", not the fixed template
"Warning: Rising Water Level." quoted in the claim (that template belongs
to the `POST /readings` secondary path). -/
theorem engine_message_counterexample :
    (evaluate (some ⟨70, 10, "x", 1⟩) 0 none [] 0).alerts =
      [⟨0, "Warning", "Warning flood level detected.", "active",
        some 70, some 10, some 1, 0⟩] ∧
    "Warning flood level detected." ≠ "Warning: Rising Water Level." := by
  constructor
  · norm_num [evaluate, evaluateF, alertLevelOf, round2, round_eq, dupMatch,
      sortActiveDesc, isActive, engineAlert]
    decide
  · decide

/-- C7 (amended): every alert inserted by the Evaluation Engine carries the
message `alert_level ++ " flood level detected."`; the fixed templates
"Warning: Rising Water Level.", "Danger: High Water Level!" and
"Critical Flood Level! Immediate action required." are the ones used by the
`POST /readings` secondary insertion path. -/
theorem engine_message_format (r : SensorReading) (lvl : String) (now : ℚ)
    (fsda : Option ℚ) (alerts : List Alert) (nextId : ℕ)
    (hadv : r.distance ≤ 76.2) (hlvl : alertLevelOf r.distance = some lvl)
    (hnew : alerts.any (dupMatch r.reading_time lvl) = false) :
    (∃ a, a ∈ (evaluate (some r) now fsda alerts nextId).alerts ∧
      a.id = nextId ∧ a.alert_level = lvl ∧
      a.message = lvl ++ " flood level detected.") ∧
    ingestMessage "WARNING" = "Warning: Rising Water Level." ∧
    ingestMessage "DANGER" = "Danger: High Water Level!" ∧
    ingestMessage "CRITICAL" = "Critical Flood Level! Immediate action required." := by
  obtain ⟨a, ham, hid, hlv2, _, hmsg, _⟩ :=
    evaluate_insert_mem r lvl now fsda alerts nextId hadv hlvl hnew
  exact ⟨⟨a, ham, hid, hlv2, hmsg⟩, by decide, by decide, by decide⟩

/-- Witness for C7: a Critical reading on an empty store. -/
theorem engine_message_format_witness :
    ∃ a, a ∈ (evaluate (some ⟨25, 5, "x", 4⟩) 3 none [] 1).alerts ∧
      a.id = 1 ∧ a.alert_level = "Critical" ∧
      a.message = "Critical" ++ " flood level detected." :=
  (engine_message_format ⟨25, 5, "x", 4⟩ "Critical" 3 none [] 1
    (by norm_num) (by norm_num [alertLevelOf, round2, round_eq]) rfl).1

/-- C10 (confirmed): the `POST /readings` secondary path stores the
lowercased status tag as `alert_level` and leaves `reading_time`,
`distance` and `flood_level` unset, while the Evaluation Engine stores a
capitalized level with `reading_time` set; the engine's duplicate check on
`(reading_time, alert_level)` can never match an ingest-path alert (its
`reading_time` is NULL), and the two paths store different `alert_level`
values for the same severity. -/
theorem ingest_engine_divergence (b : RawBody) (r : SensorReading) (lvl : String)
    (now now2 : ℚ) (fsda : Option ℚ) (readings : List Reading) (nextReadingId : ℕ)
    (alerts alerts2 : List Alert) (nextAlertId nextId : ℕ)
    (h1 : b.distance.isNumber = true) (h2 : b.floodLevel.isNumber = true)
    (h3 : b.status.isString = true) (hA : adverseTag (b.status.getStr) = true)
    (hadv : r.distance ≤ 76.2) (hlvl : alertLevelOf r.distance = some lvl)
    (hnew : alerts2.any (dupMatch r.reading_time lvl) = false) :
    ((postReading (some b) now readings nextReadingId alerts nextAlertId).alerts =
      alerts ++ [ingestAlert (b.status.getStr) nextAlertId now] ∧
     (ingestAlert (b.status.getStr) nextAlertId now).alert_level =
       toLowerStr (b.status.getStr) ∧
     (ingestAlert (b.status.getStr) nextAlertId now).reading_time = none ∧
     (ingestAlert (b.status.getStr) nextAlertId now).distance = none ∧
     (ingestAlert (b.status.getStr) nextAlertId now).flood_level = none) ∧
    (∃ a, a ∈ (evaluate (some r) now2 fsda alerts2 nextId).alerts ∧
      a.id = nextId ∧ a.reading_time = some r.reading_time ∧ a.alert_level = lvl ∧
      (lvl = "Warning" ∨ lvl = "Danger" ∨ lvl = "Critical")) ∧
    (∀ (a : Alert) (rt : ℕ) (l : String), a.reading_time = none →
      dupMatch rt l a = false) ∧
    (toLowerStr "WARNING" = "warning" ∧ toLowerStr "DANGER" = "danger" ∧
     toLowerStr "CRITICAL" = "critical" ∧
     ("warning" : String) ≠ "Warning" ∧ ("danger" : String) ≠ "Danger" ∧
     ("critical" : String) ≠ "Critical") := by
  have hcond : (b.distance.isNumber && b.floodLevel.isNumber && b.status.isString) = true := by
    rw [h1, h2, h3]
    rfl
  refine ⟨⟨?_, rfl, rfl, rfl, rfl⟩, ?_, ?_, by decide, by decide, by decide,
    by decide, by decide, by decide⟩
  · simp [postReading, postReadingF, hcond, hA]
  · obtain ⟨a, ham, hid, hlv2, hrt, _, _, _⟩ :=
      evaluate_insert_mem r lvl now2 fsda alerts2 nextId hadv hlvl hnew
    exact ⟨a, ham, hid, hrt, hlv2, alertLevelOf_cases hlvl⟩
  · intro a rt l h
    simp [dupMatch, h]

/-- Witness for C10: a WARNING-tagged ingest and a Danger engine insertion
on concrete stores. -/
theorem ingest_engine_divergence_witness :
    (postReading (some ⟨.jnum 1, .jnum 2, .jstr "Warning"⟩) 0 [] 0 [] 0).alerts =
      [] ++ [ingestAlert "Warning" 0 0] :=
  ((ingest_engine_divergence ⟨.jnum 1, .jnum 2, .jstr "Warning"⟩ ⟨60, 2, "y", 11⟩
      "Danger" 0 1 none [] 0 [] [] 0 5 rfl rfl rfl (by decide) (by norm_num)
      (by norm_num [alertLevelOf, round2, round_eq]) rfl).1).1

/-! ### Claims about reading ingest validation (C9) -/

/-- C9 (confirmed): `POST /readings` rejects a body that fails to parse, or
whose `distance`/`floodLevel` are not numbers or whose `status` is not a
string, with HTTP 400, `success = false` and no store mutation; a valid
body stores the reading and returns HTTP 200 with `success = true` and
`receivedData = {id, distance, floodLevel, status, timestamp}`; a storage
failure yields HTTP 500 with `success = false`. -/
theorem postReading_validation (b : RawBody) (now : ℚ) (readings : List Reading)
    (nextReadingId : ℕ) (alerts : List Alert) (nextAlertId : ℕ) :
    (∀ failAt, postReadingF failAt none now readings nextReadingId alerts nextAlertId =
      ⟨false, 400, none, readings, nextReadingId, alerts, nextAlertId⟩) ∧
    (¬(b.distance.isNumber = true ∧ b.floodLevel.isNumber = true ∧
        b.status.isString = true) →
      ∀ failAt, postReadingF failAt (some b) now readings nextReadingId alerts nextAlertId =
        ⟨false, 400, none, readings, nextReadingId, alerts, nextAlertId⟩) ∧
    (b.distance.isNumber = true → b.floodLevel.isNumber = true →
      b.status.isString = true →
      (postReading (some b) now readings nextReadingId alerts nextAlertId).success = true ∧
      (postReading (some b) now readings nextReadingId alerts nextAlertId).httpStatus = 200 ∧
      (postReading (some b) now readings nextReadingId alerts nextAlertId).receivedData =
        some ⟨nextReadingId, b.distance.getNum, b.floodLevel.getNum, b.status.getStr, now⟩ ∧
      (postReading (some b) now readings nextReadingId alerts nextAlertId).readings =
        readings ++ [⟨nextReadingId, b.distance.getNum, b.floodLevel.getNum, b.status.getStr⟩]) ∧
    (b.distance.isNumber = true → b.floodLevel.isNumber = true →
      b.status.isString = true →
      (postReadingF 1 (some b) now readings nextReadingId alerts nextAlertId).httpStatus = 500 ∧
      (postReadingF 1 (some b) now readings nextReadingId alerts nextAlertId).success = false ∧
      (postReadingF 1 (some b) now readings nextReadingId alerts nextAlertId).readings =
        readings) := by
  refine ⟨fun failAt => rfl, ?_, ?_, ?_⟩
  · intro h failAt
    have hcond : (b.distance.isNumber && b.floodLevel.isNumber && b.status.isString) = false := by
      cases hb1 : b.distance.isNumber <;> cases hb2 : b.floodLevel.isNumber <;>
        cases hb3 : b.status.isString <;> simp_all
    simp [postReadingF, hcond]
  · intro h1 h2 h3
    have hcond : (b.distance.isNumber && b.floodLevel.isNumber && b.status.isString) = true := by
      rw [h1, h2, h3]
      rfl
    by_cases hA : adverseTag (b.status.getStr) = true
    · simp [postReading, postReadingF, hcond, hA]
    · simp [postReading, postReadingF, hcond, hA]
  · intro h1 h2 h3
    have hcond : (b.distance.isNumber && b.floodLevel.isNumber && b.status.isString) = true := by
      rw [h1, h2, h3]
      rfl
    simp [postReadingF, hcond]

/-- Witness for C9: a valid body with a non-adverse status tag. -/
theorem postReading_validation_witness :
    (postReading (some ⟨.jnum 10, .jnum 5, .jstr "OK"⟩) 6 [] 4 [] 2).success = true ∧
    (postReading (some ⟨.jnum 10, .jnum 5, .jstr "OK"⟩) 6 [] 4 [] 2).httpStatus = 200 ∧
    (postReading (some ⟨.jnum 10, .jnum 5, .jstr "OK"⟩) 6 [] 4 [] 2).receivedData =
      some ⟨4, 10, 5, "OK", 6⟩ ∧
    (postReading (some ⟨.jnum 10, .jnum 5, .jstr "OK"⟩) 6 [] 4 [] 2).readings =
      [] ++ [⟨4, 10, 5, "OK"⟩] :=
  (postReading_validation ⟨.jnum 10, .jnum 5, .jstr "OK"⟩ 6 [] 4 [] 2).2.2.1 rfl rfl rfl

end RainAlert
